import Mathlib

/-!
# IPC over a UNIX socket pair (`src/util/ipc.cpp`)

A shallow embedding of `IPC::Host` and `IPC::Client`.

* Object state (`m_handler`, `m_socket`, `m_source`, `m_clientFd`) is an explicit record that
  every member function takes and returns.
* Calls that leave the translation unit (`close`, the GLib source and object calls, the
  sends, the two `Handler` virtuals, the frees) are recorded, in program order, in a list of
  `Effect`s returned next to the result.
* Results of the calls into the kernel and GLib (`socketpair`, `g_socket_new_from_fd`,
  `g_socket_create_source`, `g_socket_receive_message`, `g_socket_receive`) are inputs of the
  embedded function.
* `ipc.h` is not among the sources.  The member `m_messageSize` it declares is carried as a
  field of the endpoint records and read as a `size_t`: the code hands it to `g_new0` as the
  element count, to `GInputVector` as the size and to `handleMessage` as the length.
-/

namespace IPC

/-- One `char` of a message buffer. -/
abbrev Byte := Nat

/-- GLib `gboolean`. -/
abbrev gboolean := Bool

/-- GLib `TRUE`: returned from a source callback it keeps the source attached. -/
abbrev TRUE : gboolean := true

/-- GLib `FALSE`: returned from a source callback it removes the source. -/
abbrev FALSE : gboolean := false

/-- `G_IO_IN` of `GIOCondition`: there is data to read. -/
def G_IO_IN : Nat := 1

/-- Number of values of the 64-bit `size_t`; `gssize` operands of a mixed comparison are
converted modulo this. -/
def SIZE_RANGE : Int := 2 ^ 64

/-- A received `GSocketControlMessage`: either a `GUnixFDMessage`, holding a descriptor list,
or a control message of some other class. -/
inductive ControlMessage where
  | unixFd (fdList : List Int)
  | other (tag : Nat)
  deriving DecidableEq, Repr

/-- `G_IS_UNIX_FD_MESSAGE`. -/
def G_IS_UNIX_FD_MESSAGE : ControlMessage → Bool
  | ControlMessage.unixFd _ => true
  | ControlMessage.other _ => false

/-- `G_UNIX_FD_MESSAGE(m)` followed by the read of its descriptor list. -/
def ControlMessage.fdList : ControlMessage → List Int
  | ControlMessage.unixFd l => l
  | ControlMessage.other _ => []

/-- `g_unix_fd_message_steal_fds` (GLib): the returned array holds the descriptors of the
message followed by the terminator `-1`, so it is never empty; the out-parameter receives the
number of descriptors, terminator not counted. -/
def g_unix_fd_message_steal_fds (m : ControlMessage) : List Int × Nat :=
  (m.fdList ++ [-1], m.fdList.length)

/-- Calls that leave the translation unit, as they appear in the trace of an operation.  The
two `Handler` calls are made on the endpoint's `m_handler`. -/
inductive Effect where
  | close (fd : Int)
  | g_source_set_callback (source : Nat)
  | g_source_attach (source : Nat)
  | g_source_destroy (source : Nat)
  | g_object_unref_socket (socket : Nat)
  | g_object_unref_message (index : Nat)
  | g_free_messages
  | g_free_fds
  | g_free_buffer
  | g_socket_send (socket : Option Nat) (bytes : List Byte)
  | handleFd (fd : Int)
  | handleMessage (buffer : List Byte) (size : Nat)
  deriving DecidableEq, Repr

/-- Whether an effect is one of the two `Handler` capabilities. -/
def Effect.isHandlerCall : Effect → Bool
  | Effect.handleFd _ => true
  | Effect.handleMessage _ _ => true
  | _ => false

/-- The `Handler` invocations of a trace, in order. -/
def handlerCalls (trace : List Effect) : List Effect :=
  trace.filter Effect.isHandlerCall

/-- Whether an effect is a `close` system call. -/
def Effect.isClose : Effect → Bool
  | Effect.close _ => true
  | _ => false

/-- The `close` calls of a trace, in order. -/
def closeCalls (trace : List Effect) : List Effect :=
  trace.filter Effect.isClose

/-- Data members of `IPC::Host`.  Pointers are `Option`s of an object identity, `none` being
the null pointer. -/
structure Host where
  m_handler : Option Nat
  m_socket : Option Nat
  m_source : Option Nat
  m_clientFd : Int
  m_messageSize : Nat
  deriving DecidableEq, Repr

/-- Modelled from the spec: the Uninitialized state of a Host (the class declaration with its
default member initialisers is in `ipc.h`, which is missing): no handler, no socket, no
watch, and the retained descriptor at the invalid sentinel. -/
def Host.uninitialized (messageSize : Nat) : Host :=
  { m_handler := none, m_socket := none, m_source := none, m_clientFd := -1,
    m_messageSize := messageSize }

/-- What the kernel and GLib answer during `Host::initialize`.
* `socketpairRet`, `sockets`: return value of `socketpair` and the array it fills;
* `g_socket_new_from_fd`: the wrapped socket, `none` for a null result;
* `g_socket_create_source`: the source created for a socket. -/
structure InitEnv where
  socketpairRet : Int
  sockets : Int × Int
  g_socket_new_from_fd : Int → Option Nat
  g_socket_create_source : Nat → Nat

/-- `Host::initialize` (ipc.cpp 12-33). -/
def Host.initialize (host : Host) (handler : Nat) (env : InitEnv) : Host × List Effect :=
  let host := { host with m_handler := some handler }
  let ret := env.socketpairRet
  if ret = -1 then
    (host, [])
  else
    let host := { host with m_socket := env.g_socket_new_from_fd env.sockets.1 }
    match host.m_socket with
    | none => (host, [Effect.close env.sockets.1, Effect.close env.sockets.2])
    | some socket =>
      let source := env.g_socket_create_source socket
      let host := { host with m_source := some source }
      ({ host with m_clientFd := env.sockets.2 },
        [Effect.g_source_set_callback source, Effect.g_source_attach source])

/-- `Host::deinitialize` (ipc.cpp 35-44).  No member is written. -/
def Host.deinitialize (host : Host) : Host × List Effect :=
  let closeFd := if host.m_clientFd ≠ -1 then [Effect.close host.m_clientFd] else []
  let destroy := match host.m_source with
    | some source => [Effect.g_source_destroy source]
    | none => []
  let unref := match host.m_socket with
    | some socket => [Effect.g_object_unref_socket socket]
    | none => []
  (host, closeFd ++ destroy ++ unref)

/-- `Host::releaseClientFD` (ipc.cpp 46-51): the returned value and the state after. -/
def Host.releaseClientFD (host : Host) : Int × Host :=
  let fd := host.m_clientFd
  (fd, { host with m_clientFd := -1 })

/-- `Host::send` (ipc.cpp 53-56): `g_socket_send` of the first `size` chars of `data`. -/
def Host.send (host : Host) (data : List Byte) (size : Nat) : List Effect :=
  [Effect.g_socket_send host.m_socket (data.take size)]

/-- Outcome of `g_socket_receive_message` with one input vector.
* `len`: the `gssize` returned, `-1` on error, else the number of bytes read;
* `bytes`: the bytes stored at the start of the vector;
* `messages`: the control messages returned, `nMessages` being their number. -/
structure ReceiveMessageResult where
  len : Int
  bytes : List Byte
  messages : List ControlMessage
  deriving DecidableEq, Repr

/-- The buffer after the receive: `g_new0` zero-fills `size` chars and the receive overwrites
a prefix of it with the bytes read. -/
def receivedBuffer (size : Nat) (bytes : List Byte) : List Byte :=
  (bytes ++ List.replicate (size - bytes.length) 0).take size

/-- `Host::socketCallback` (ipc.cpp 58-104): the `gboolean` returned and the trace.
`len == host.m_messageSize` compares a `gssize` with a `size_t`, so `len` is converted to
`size_t` first.  `fds[0]` reads index 0 of the stolen array, which always exists since the
array ends in its terminator; the default of `getD` is never taken. -/
def Host.socketCallback (host : Host) (condition : Nat) (recv : ReceiveMessageResult) :
    gboolean × List Effect :=
  if condition &&& G_IO_IN = 0 then
    (TRUE, [])
  else
    let nMessages := recv.messages.length
    let buffer := receivedBuffer host.m_messageSize recv.bytes
    let len := recv.len
    if len = -1 then
      (FALSE, [Effect.g_free_buffer])
    else
      let fdPart : List Effect :=
        match recv.messages with
        | [message] =>
          if G_IS_UNIX_FD_MESSAGE message then
            let fds := (g_unix_fd_message_steal_fds message).1
            [Effect.handleFd (fds.getD 0 (-1)), Effect.g_free_fds]
          else []
        | _ => []
      if nMessages > 0 then
        (TRUE, fdPart ++ (List.range nMessages).map Effect.g_object_unref_message
          ++ [Effect.g_free_messages, Effect.g_free_buffer])
      else if len % SIZE_RANGE = (host.m_messageSize : Int) then
        (TRUE, fdPart ++ [Effect.handleMessage buffer host.m_messageSize, Effect.g_free_buffer])
      else
        (TRUE, fdPart ++ [Effect.g_free_buffer])

/-- Data members of `IPC::Client`. -/
structure Client where
  m_handler : Option Nat
  m_socket : Option Nat
  m_source : Option Nat
  m_messageSize : Nat
  deriving DecidableEq, Repr

/-- Outcome of `g_socket_receive`: the `gssize` returned (`-1` on error) and the bytes stored
at the start of the buffer. -/
structure ReceiveResult where
  len : Int
  bytes : List Byte
  deriving DecidableEq, Repr

/-- `Client::socketCallback` (ipc.cpp 125-140). -/
def Client.socketCallback (client : Client) (condition : Nat) (recv : ReceiveResult) :
    gboolean × List Effect :=
  if condition &&& G_IO_IN = 0 then
    (TRUE, [])
  else
    let buffer := receivedBuffer client.m_messageSize recv.bytes
    let len := recv.len
    if len % SIZE_RANGE = (client.m_messageSize : Int) then
      (TRUE, [Effect.handleMessage buffer client.m_messageSize, Effect.g_free_buffer])
    else
      (TRUE, [Effect.g_free_buffer])

/-- `Client::sendMessage` (ipc.cpp 158-161). -/
def Client.sendMessage (client : Client) (data : List Byte) (size : Nat) : List Effect :=
  [Effect.g_socket_send client.m_socket (data.take size)]

/-- The bytes a trace hands to `g_socket_send`, in order. -/
def sentBytes : List Effect → List Byte
  | [] => []
  | Effect.g_socket_send _ bytes :: rest => bytes ++ sentBytes rest
  | _ :: rest => sentBytes rest

/-- The Host state after `n` consecutive calls of `releaseClientFD`. -/
def Host.afterReleases : Nat → Host → Host
  | 0, host => host
  | n + 1, host => Host.afterReleases n (Host.releaseClientFD host).2

/-- An environment in which `socketpair` yields the descriptors 3 and 4 and both GLib calls
succeed. -/
def sampleEnv : InitEnv :=
  { socketpairRet := 0, sockets := (3, 4),
    g_socket_new_from_fd := fun fd => some fd.toNat,
    g_socket_create_source := fun socket => socket + 100 }

/-- An environment in which `socketpair` fails. -/
def pairFailureEnv : InitEnv :=
  { socketpairRet := -1, sockets := (0, 0),
    g_socket_new_from_fd := fun fd => some fd.toNat,
    g_socket_create_source := fun socket => socket + 100 }

/-- An environment in which `socketpair` yields 3 and 4 and `g_socket_new_from_fd` returns
null. -/
def wrapFailureEnv : InitEnv :=
  { socketpairRet := 0, sockets := (3, 4),
    g_socket_new_from_fd := fun _ => none,
    g_socket_create_source := fun socket => socket + 100 }

/-! ## Lemmas shared by the proofs -/

theorem g_unix_fd_message_steal_fds_first (fdList : List Int) :
    (g_unix_fd_message_steal_fds (ControlMessage.unixFd fdList)).1.getD 0 (-1)
      = fdList.headD (-1) := by
  cases fdList <;> simp [g_unix_fd_message_steal_fds, ControlMessage.fdList]

theorem initialize_success (host : Host) (handler : Nat) (env : InitEnv) (socket : Nat)
    (hpair : env.socketpairRet ≠ -1)
    (hwrap : env.g_socket_new_from_fd env.sockets.1 = some socket) :
    Host.initialize host handler env
      = ({ m_handler := some handler, m_socket := some socket,
           m_source := some (env.g_socket_create_source socket),
           m_clientFd := env.sockets.2, m_messageSize := host.m_messageSize },
         [Effect.g_source_set_callback (env.g_socket_create_source socket),
          Effect.g_source_attach (env.g_socket_create_source socket)]) := by
  simp [ Host.initialize, hpair, hwrap]

theorem afterReleases_clientFd (n : Nat) (host : Host) (hn : 1 ≤ n) :
    (Host.afterReleases n host).m_clientFd = -1 := by
  induction n generalizing host with
  | zero => omega
  | succ k ih =>
    cases k with
    | zero => simp [Host.afterReleases, Host.releaseClientFD]
    | succ j => exact ih (Host.releaseClientFD host).2 (by omega)

theorem receivedBuffer_full (size : Nat) (bytes : List Byte) (h : bytes.length = size) :
    receivedBuffer size bytes = bytes := by
  simp [receivedBuffer, h]

theorem mod_size_range_of_fits (n : Nat) (h : (n : Int) < SIZE_RANGE) :
    (n : Int) % SIZE_RANGE = (n : Int) :=
  Int.emod_eq_of_lt (Int.ofNat_nonneg n) h

/-! ## Host life cycle -/

/-- C1: after a successful initialize that retained the descriptor c = sockets[1], c not
negative, the first releaseClientFD returns c, the second returns -1, the two values differ,
and the call after any positive number of releases returns -1. -/
theorem releaseClientFD_single_use (host : Host) (handler : Nat) (env : InitEnv) (socket : Nat)
    (hpair : env.socketpairRet ≠ -1)
    (hwrap : env.g_socket_new_from_fd env.sockets.1 = some socket)
    (hfd : 0 ≤ env.sockets.2) :
    ( Host.releaseClientFD ( Host.initialize host handler env).1).1 = env.sockets.2
    ∧ ( Host.releaseClientFD
        ( Host.releaseClientFD ( Host.initialize host handler env).1).2).1 = -1
    ∧ ( Host.releaseClientFD ( Host.initialize host handler env).1).1
        ≠ ( Host.releaseClientFD
            ( Host.releaseClientFD ( Host.initialize host handler env).1).2).1
    ∧ ∀ n : Nat, 1 ≤ n →
        ( Host.releaseClientFD
          ( Host.afterReleases n ( Host.initialize host handler env).1)).1 = -1 := by
  rw [initialize_success host handler env socket hpair hwrap]
  refine ⟨rfl, rfl, ?_, ?_⟩
  · simp only [Host.releaseClientFD]
    omega
  · intro n hn
    simpa [Host.releaseClientFD] using afterReleases_clientFd n _ hn

theorem releaseClientFD_single_use_witness :
    ( Host.releaseClientFD ( Host.initialize (Host.uninitialized 32) 7 sampleEnv).1).1 = 4
    ∧ ( Host.releaseClientFD
        ( Host.releaseClientFD ( Host.initialize (Host.uninitialized 32) 7 sampleEnv).1).2).1
        = -1 :=
  have h := releaseClientFD_single_use (Host.uninitialized 32) 7 sampleEnv 3
    (by decide) (by decide) (by decide)
  ⟨h.1, h.2.1⟩

/-- C9: on a successfully initialized Host with retained descriptor c, deinitialize closes c
exactly once when releaseClientFD has not been called and closes nothing when it has; either
way it destroys the source and unreferences the socket, and does nothing else. -/
theorem deinitialize_closes_retained_iff_held (host : Host) (handler : Nat) (env : InitEnv)
    (socket : Nat)
    (hpair : env.socketpairRet ≠ -1)
    (hwrap : env.g_socket_new_from_fd env.sockets.1 = some socket)
    (hfd : 0 ≤ env.sockets.2) :
    ( Host.deinitialize ( Host.initialize host handler env).1).2
        = [Effect.close env.sockets.2,
           Effect.g_source_destroy (env.g_socket_create_source socket),
           Effect.g_object_unref_socket socket]
    ∧ closeCalls ( Host.deinitialize ( Host.initialize host handler env).1).2
        = [Effect.close env.sockets.2]
    ∧ ( Host.deinitialize
        ( Host.releaseClientFD ( Host.initialize host handler env).1).2).2
        = [Effect.g_source_destroy (env.g_socket_create_source socket),
           Effect.g_object_unref_socket socket]
    ∧ closeCalls ( Host.deinitialize
        ( Host.releaseClientFD ( Host.initialize host handler env).1).2).2 = [] := by
  rw [initialize_success host handler env socket hpair hwrap]
  have hne : env.sockets.2 ≠ -1 := by omega
  simp [ Host.deinitialize, Host.releaseClientFD, closeCalls, Effect.isClose, hne]

theorem deinitialize_closes_retained_iff_held_witness :
    ( Host.deinitialize ( Host.initialize (Host.uninitialized 32) 7 sampleEnv).1).2
        = [Effect.close 4, Effect.g_source_destroy 103, Effect.g_object_unref_socket 3]
    ∧ ( Host.deinitialize
        ( Host.releaseClientFD ( Host.initialize (Host.uninitialized 32) 7 sampleEnv).1).2).2
        = [Effect.g_source_destroy 103, Effect.g_object_unref_socket 3] :=
  have h := deinitialize_closes_retained_iff_held (Host.uninitialized 32) 7 sampleEnv 3
    (by decide) (by decide) (by decide)
  ⟨h.1, h.2.2.1⟩

/-- C8, as the claim has it, fails: after an initialize whose `socketpair` fails, and after
one whose `g_socket_new_from_fd` fails, the Host that was Uninitialized holds the handler it
was given, so it is not the Uninitialized state any more. -/
theorem initialize_failure_retains_handler :
    ( Host.initialize (Host.uninitialized 32) 7 pairFailureEnv).1.m_handler = some 7
    ∧ ( Host.initialize (Host.uninitialized 32) 7 wrapFailureEnv).1.m_handler = some 7
    ∧ ( Host.initialize (Host.uninitialized 32) 7 pairFailureEnv).1 ≠ Host.uninitialized 32
    ∧ ( Host.initialize (Host.uninitialized 32) 7 wrapFailureEnv).1 ≠ Host.uninitialized 32 := by
  decide

/-- C8 amended: a failed initialize of an Uninitialized Host leaves it without socket, without
watch and with retained descriptor -1, its handler reference being the handler passed in;
when `socketpair` fails nothing is called, and when the wrap fails the two descriptors of
the pair are closed, once each, and nothing else is called. -/
theorem initialize_failure_state (messageSize handler : Nat) (env : InitEnv)
    (hfail : env.socketpairRet = -1
      ∨ (env.socketpairRet ≠ -1 ∧ env.g_socket_new_from_fd env.sockets.1 = none)) :
    ( Host.initialize (Host.uninitialized messageSize) handler env).1
        = { m_handler := some handler, m_socket := none, m_source := none, m_clientFd := -1,
            m_messageSize := messageSize }
    ∧ (env.socketpairRet = -1 →
        ( Host.initialize (Host.uninitialized messageSize) handler env).2 = [])
    ∧ (env.socketpairRet ≠ -1 →
        ( Host.initialize (Host.uninitialized messageSize) handler env).2
          = [Effect.close env.sockets.1, Effect.close env.sockets.2]) := by
  rcases hfail with h | ⟨h, hw⟩
  · simp [ Host.initialize, Host.uninitialized, h]
  · simp [ Host.initialize, Host.uninitialized, h, hw]

theorem initialize_failure_state_witness :
    ( Host.initialize (Host.uninitialized 32) 7 wrapFailureEnv).1
        = { m_handler := some 7, m_socket := none, m_source := none, m_clientFd := -1,
            m_messageSize := 32 }
    ∧ ( Host.initialize (Host.uninitialized 32) 7 wrapFailureEnv).2
        = [Effect.close 3, Effect.close 4] :=
  have h := initialize_failure_state 32 7 wrapFailureEnv (Or.inr ⟨by decide, by decide⟩)
  ⟨h.1, h.2.2 (by decide)⟩

/-! ## Receive dispatch -/

/-- C2: on a readable event whose receive returned a length that is not negative, whatever
that length, and exactly one control message, a unix-fd message, the callback keeps watching
and the Handler is invoked exactly once: `handleFd` on the first descriptor of the message
list (on the terminator -1 should the list hold none); `handleMessage` is not invoked. -/
theorem socketCallback_descriptor_precedence (host : Host) (condition : Nat)
    (recv : ReceiveMessageResult) (fdList : List Int)
    (hin : condition &&& G_IO_IN ≠ 0)
    (hlen : 0 ≤ recv.len)
    (hmsg : recv.messages = [ControlMessage.unixFd fdList]) :
    (Host.socketCallback host condition recv).1 = TRUE
    ∧ handlerCalls (Host.socketCallback host condition recv).2
        = [Effect.handleFd (fdList.headD (-1))] := by
  have hne : recv.len ≠ -1 := by omega
  have hfirst := g_unix_fd_message_steal_fds_first fdList
  simp [Host.socketCallback, hin, hne, hmsg, G_IS_UNIX_FD_MESSAGE, handlerCalls,
    Effect.isHandlerCall, List.filter_cons]
  simpa using hfirst

theorem socketCallback_descriptor_precedence_witness :
    handlerCalls (Host.socketCallback (Host.uninitialized 4) G_IO_IN
        ⟨4, [65, 66, 67, 68], [ControlMessage.unixFd [9, 10]]⟩).2
      = [Effect.handleFd 9] :=
  (socketCallback_descriptor_precedence (Host.uninitialized 4) G_IO_IN
    ⟨4, [65, 66, 67, 68], [ControlMessage.unixFd [9, 10]]⟩ [9, 10]
    (by decide) (by decide) rfl).2

/-- C3: for a buffer b of exactly the configured message size, shared by the two endpoints,
when the bytes that `Client::sendMessage(b, size)` hands to the socket reach the Host in one
readable event without control messages, `Host::socketCallback` invokes `handleMessage`
exactly once, on a buffer equal to b and the length size, and `handleFd` never; the same
holds for `Host::send(b, size)` towards `Client::socketCallback`. -/
theorem message_round_trip (host : Host) (client : Client) (b : List Byte) (condition : Nat)
    (atHost : ReceiveMessageResult) (atClient : ReceiveResult)
    (hsame : client.m_messageSize = host.m_messageSize)
    (hfits : (host.m_messageSize : Int) < SIZE_RANGE)
    (hb : b.length = host.m_messageSize)
    (hin : condition &&& G_IO_IN ≠ 0)
    (hHostBytes : atHost.bytes = sentBytes (Client.sendMessage client b host.m_messageSize))
    (hHostLen : atHost.len = (atHost.bytes.length : Int))
    (hHostMsgs : atHost.messages = [])
    (hClientBytes : atClient.bytes = sentBytes (Host.send host b host.m_messageSize))
    (hClientLen : atClient.len = (atClient.bytes.length : Int)) :
    handlerCalls (Host.socketCallback host condition atHost).2
        = [Effect.handleMessage b host.m_messageSize]
    ∧ handlerCalls (Client.socketCallback client condition atClient).2
        = [Effect.handleMessage b host.m_messageSize] := by
  have hmod := mod_size_range_of_fits host.m_messageSize hfits
  have hsent : ∀ socket : Option Nat,
      sentBytes [Effect.g_socket_send socket (b.take host.m_messageSize)] = b := by
    intro socket
    simp [sentBytes, ← hb]
  have hbH : atHost.bytes = b := by rw [hHostBytes]; exact hsent _
  have hbC : atClient.bytes = b := by rw [hClientBytes]; exact hsent _
  have hlH : atHost.len = (host.m_messageSize : Int) := by rw [hHostLen, hbH, hb]
  have hlC : atClient.len = (host.m_messageSize : Int) := by rw [hClientLen, hbC, hb]
  have hneg : (host.m_messageSize : Int) ≠ -1 := by omega
  have hbuf := receivedBuffer_full host.m_messageSize b hb
  constructor
  · simp [Host.socketCallback, hin, hlH, hneg, hHostMsgs, hmod, hbH, hbuf, handlerCalls,
      Effect.isHandlerCall, List.filter_cons]
  · simp [Client.socketCallback, hin, hlC, hsame, hmod, hbC, hbuf, handlerCalls,
      Effect.isHandlerCall, List.filter_cons]

theorem message_round_trip_witness :
    handlerCalls (Host.socketCallback (Host.uninitialized 4) G_IO_IN
        ⟨4, [65, 66, 67, 68], []⟩).2 = [Effect.handleMessage [65, 66, 67, 68] 4]
    ∧ handlerCalls (Client.socketCallback ⟨some 7, some 3, some 103, 4⟩ G_IO_IN
        ⟨4, [65, 66, 67, 68]⟩).2 = [Effect.handleMessage [65, 66, 67, 68] 4] :=
  message_round_trip (Host.uninitialized 4) ⟨some 7, some 3, some 103, 4⟩ [65, 66, 67, 68]
    G_IO_IN ⟨4, [65, 66, 67, 68], []⟩ ⟨4, [65, 66, 67, 68]⟩
    rfl (by decide) rfl (by decide) rfl rfl rfl rfl rfl

/-- C4: in `Host::socketCallback` and in `Client::socketCallback`, a readable event whose
receive yields a length len with 0 <= len < message size, without control messages, invokes
neither `handleMessage` nor `handleFd`, and the callback returns TRUE. -/
theorem short_read_dropped (host : Host) (client : Client) (condition : Nat)
    (atHost : ReceiveMessageResult) (atClient : ReceiveResult)
    (hin : condition &&& G_IO_IN ≠ 0)
    (hHost0 : 0 ≤ atHost.len) (hHostShort : atHost.len < (host.m_messageSize : Int))
    (hHostMsgs : atHost.messages = [])
    (hClient0 : 0 ≤ atClient.len)
    (hClientShort : atClient.len < (client.m_messageSize : Int)) :
    ((Host.socketCallback host condition atHost).1 = TRUE
      ∧ handlerCalls (Host.socketCallback host condition atHost).2 = [])
    ∧ ((Client.socketCallback client condition atClient).1 = TRUE
      ∧ handlerCalls (Client.socketCallback client condition atClient).2 = []) := by
  have hrange : (0 : Int) < SIZE_RANGE := by decide
  have hH : atHost.len % SIZE_RANGE ≠ (host.m_messageSize : Int) := by
    intro h
    have hlt := Int.emod_lt_of_pos atHost.len hrange
    have := Int.emod_eq_of_lt hHost0 (by omega : atHost.len < SIZE_RANGE)
    omega
  have hC : atClient.len % SIZE_RANGE ≠ (client.m_messageSize : Int) := by
    intro h
    have hlt := Int.emod_lt_of_pos atClient.len hrange
    have := Int.emod_eq_of_lt hClient0 (by omega : atClient.len < SIZE_RANGE)
    omega
  have hne : atHost.len ≠ -1 := by omega
  constructor
  · simp [Host.socketCallback, hin, hne, hHostMsgs, hH, handlerCalls, Effect.isHandlerCall]
  · simp [Client.socketCallback, hin, hC, handlerCalls, Effect.isHandlerCall]

theorem short_read_dropped_witness :
    ((Host.socketCallback (Host.uninitialized 4) G_IO_IN ⟨3, [65, 66, 67], []⟩).1 = TRUE
      ∧ handlerCalls
          (Host.socketCallback (Host.uninitialized 4) G_IO_IN ⟨3, [65, 66, 67], []⟩).2 = [])
    ∧ ((Client.socketCallback ⟨some 7, some 3, some 103, 4⟩ G_IO_IN ⟨0, []⟩).1 = TRUE
      ∧ handlerCalls
          (Client.socketCallback ⟨some 7, some 3, some 103, 4⟩ G_IO_IN ⟨0, []⟩).2 = []) :=
  short_read_dropped (Host.uninitialized 4) ⟨some 7, some 3, some 103, 4⟩ G_IO_IN
    ⟨3, [65, 66, 67], []⟩ ⟨0, []⟩ (by decide) (by decide) (by decide) rfl (by decide)
    (by decide)

/-- C5, as the claim has it, fails: with a full-size read (4 bytes, message size 4) and one
control message that is not a unix-fd message, and likewise with two unix-fd messages, it is
not the case that exactly one descriptor-carrying unit was received, yet no Handler
capability is invoked: the trace holds no `handleMessage`. -/
theorem socketCallback_ancillary_suppresses_message :
    handlerCalls (Host.socketCallback (Host.uninitialized 4) G_IO_IN
        ⟨4, [65, 66, 67, 68], [ControlMessage.other 0]⟩).2 = []
    ∧ handlerCalls (Host.socketCallback (Host.uninitialized 4) G_IO_IN
        ⟨4, [65, 66, 67, 68], [ControlMessage.unixFd [9], ControlMessage.unixFd [10]]⟩).2
        = [] := by
  decide

/-- C5 amended: on a readable event of `Host::socketCallback` whose received byte count
equals the configured message size, `handleMessage` is invoked exactly once, with the
received buffer and the configured size, and no other capability, when no control message
was received; when one or more control messages of any kind were received, `handleMessage`
is not invoked. -/
theorem socketCallback_message_dispatch (host : Host) (condition : Nat)
    (recv : ReceiveMessageResult)
    (hin : condition &&& G_IO_IN ≠ 0)
    (hfits : (host.m_messageSize : Int) < SIZE_RANGE)
    (hlen : recv.len = (host.m_messageSize : Int)) :
    (recv.messages = [] →
      handlerCalls (Host.socketCallback host condition recv).2
        = [Effect.handleMessage (receivedBuffer host.m_messageSize recv.bytes)
            host.m_messageSize])
    ∧ (recv.messages ≠ [] →
      ∀ (buffer : List Byte) (size : Nat),
        Effect.handleMessage buffer size ∉ (Host.socketCallback host condition recv).2) := by
  have hmod := mod_size_range_of_fits host.m_messageSize hfits
  have hneg : (host.m_messageSize : Int) ≠ -1 := by omega
  constructor
  · intro hmsgs
    simp [Host.socketCallback, hin, hlen, hneg, hmsgs, hmod, handlerCalls,
      Effect.isHandlerCall, List.filter_cons]
  · intro hmsgs buffer size
    have hpos : 0 < recv.messages.length := List.length_pos.mpr hmsgs
    simp only [Host.socketCallback, hin, hlen, hneg, hpos, if_false, if_true, gt_iff_lt]
    intro hmem
    simp only [List.mem_append, List.mem_map, List.mem_cons] at hmem
    rcases hmem with (hmem | hmem) | hmem
    · split at hmem
      · split at hmem <;> simp at hmem
      · simp at hmem
    · obtain ⟨_, _, h⟩ := hmem
      cases h
    · simp at hmem

theorem socketCallback_message_dispatch_witness :
    handlerCalls (Host.socketCallback (Host.uninitialized 4) G_IO_IN
        ⟨4, [65, 66, 67, 68], []⟩).2 = [Effect.handleMessage [65, 66, 67, 68] 4]
    ∧ Effect.handleMessage [65, 66, 67, 68] 4 ∉
        (Host.socketCallback (Host.uninitialized 4) G_IO_IN
          ⟨4, [65, 66, 67, 68], [ControlMessage.other 0]⟩).2 :=
  ⟨(socketCallback_message_dispatch (Host.uninitialized 4) G_IO_IN ⟨4, [65, 66, 67, 68], []⟩
      (by decide) (by decide) rfl).1 rfl,
   (socketCallback_message_dispatch (Host.uninitialized 4) G_IO_IN
      ⟨4, [65, 66, 67, 68], [ControlMessage.other 0]⟩
      (by decide) (by decide) rfl).2 (by decide) [65, 66, 67, 68] 4⟩

/-- C6: for every event condition and every outcome of the receive (a length that is -1 or
not negative, any control messages), `Host::socketCallback` returns FALSE exactly when the
condition includes `G_IO_IN` and the receive returned a negative length, and TRUE in every
other case; when it returns FALSE no Handler capability is invoked. -/
theorem socketCallback_return_value (host : Host) (condition : Nat)
    (recv : ReceiveMessageResult) (hapi : -1 ≤ recv.len) :
    ((Host.socketCallback host condition recv).1 = FALSE
        ↔ (condition &&& G_IO_IN ≠ 0 ∧ recv.len < 0))
    ∧ ((Host.socketCallback host condition recv).1 = TRUE
        ↔ ¬ (condition &&& G_IO_IN ≠ 0 ∧ recv.len < 0))
    ∧ ((Host.socketCallback host condition recv).1 = FALSE
        → handlerCalls (Host.socketCallback host condition recv).2 = []) := by
  by_cases hin : condition &&& G_IO_IN = 0
  · simp [Host.socketCallback, hin]
  · by_cases herr : recv.len = -1
    · simp [Host.socketCallback, hin, herr, handlerCalls, Effect.isHandlerCall]
    · have hnn : ¬ recv.len < 0 := by omega
      simp only [Host.socketCallback, hin, herr, if_false]
      split <;> [skip; split] <;> simp [hnn]

theorem socketCallback_return_value_witness :
    (Host.socketCallback (Host.uninitialized 4) G_IO_IN ⟨-1, [], []⟩).1 = FALSE
    ∧ handlerCalls (Host.socketCallback (Host.uninitialized 4) G_IO_IN ⟨-1, [], []⟩).2 = [] :=
  have h := socketCallback_return_value (Host.uninitialized 4) G_IO_IN ⟨-1, [], []⟩
    (by decide)
  ⟨h.1.mpr ⟨by decide, by decide⟩, h.2.2 (h.1.mpr ⟨by decide, by decide⟩)⟩

/-- C7, evaluated on the code: on a readable event whose `g_socket_receive` returned -1,
`Client::socketCallback` (message size 32) returns TRUE, so the watch goes on, where
`Host::socketCallback` on the same receive error returns FALSE; the Client callback
returns TRUE on every input. -/
theorem Client_socketCallback_receive_error :
    Client.socketCallback ⟨some 7, some 3, some 103, 32⟩ G_IO_IN ⟨-1, []⟩
        = (TRUE, [Effect.g_free_buffer])
    ∧ (Host.socketCallback (Host.uninitialized 32) G_IO_IN ⟨-1, [], []⟩).1 = FALSE
    ∧ ∀ (client : Client) (condition : Nat) (recv : ReceiveResult),
        (Client.socketCallback client condition recv).1 = TRUE := by
  refine ⟨by decide, by decide, ?_⟩
  intro client condition recv
  simp only [Client.socketCallback]
  split <;> [rfl; split] <;> rfl

end IPC
